import Mathlib

/-!
# Verification of the kure-map marker/filter/favorites/search core

Shallow embedding of `src/js/app.js` (the only source file of the
repository).  Pure computations (marker sizing/coloring, icon lookup) are
translated as Lean functions; stateful code (favorites store, route
overlay, filter application, data loading, search handling) is translated
as explicit state passing over record types that model exactly the mutable
globals of the script (`allData`, `favorites` + the localStorage slot,
`activeFilters` + layer/map membership, `currentRoute`/`routePolyline`/
`routeMarkers`).

Modelling conventions:
* JS numbers that the code obtains via `parseFloat` are modelled as
  `Option ℚ` — `none` plays the role of `NaN` (a non-numeric source
  string); `parseInt` results that no claim exercises on non-numeric
  input are modelled as `Int`.
* `JSON.parse` / `response.json()` outcomes are modelled as `Option`
  of the already-shaped payload; `none` models a malformed body.
* Timestamps are `Int` milliseconds.  `new Date(s)` on the date-only
  strings used by the data files yields the first instant of that
  calendar day, modelled as `day * msPerDay`; `new Date()` is an
  arbitrary `now : Int`.
* DOM-only effects (popup HTML, list re-rendering, CSS classes that no
  claim mentions) are not part of the state; the CSS `active` class on
  route list items and the route-controls visibility are kept because
  claim C7 speaks about the UI selection state.
-/

namespace KureMap

/-- `CONFIG.marker` from `app.js`. -/
structure MarkerConfig where
  minSize : ℚ
  maxSize : ℚ
  sizeMultiplier : ℚ
deriving DecidableEq

/-- `CONFIG.colors` from `app.js`. -/
structure ColorsConfig where
  wifi : String
  tourism : String
  facility : String
  emergency : String
  event : String
deriving DecidableEq

def CONFIG_marker : MarkerConfig :=
  { minSize := 20, maxSize := 50, sizeMultiplier := 5 }

def CONFIG_colors : ColorsConfig :=
  { wifi := "#4CAF50", tourism := "#E91E63", facility := "#9C27B0",
    emergency := "#F44336", event := "#FF5722" }

/-- JS `Math.min` on two (non-NaN) numbers. -/
def jsMin (a b : ℚ) : ℚ := if a ≤ b then a else b

/-- JS `Math.max` on two (non-NaN) numbers. -/
def jsMax (a b : ℚ) : ℚ := if a ≤ b then b else a

/-- `getMarkerSize` from `app.js`:
`Math.max(minSize, Math.min(maxSize, value / sizeMultiplier))`. -/
def getMarkerSize (value : Int) : ℚ :=
  let size := (value : ℚ) / CONFIG_marker.sizeMultiplier
  jsMax CONFIG_marker.minSize (jsMin CONFIG_marker.maxSize size)

/-- `getWifiMarkerColor` from `app.js`: descending threshold chain on the
parsed 利用者数 (user-count) value. -/
def getWifiMarkerColor (users : Int) : String :=
  if users > 150 then "#F44336"
  else if users > 100 then "#FF9800"
  else if users > 50 then "#FFC107"
  else CONFIG_colors.wifi

/-- The color tiers as the spec words them (claim C9), band by band; a
second definition written from the spec to compare with
`getWifiMarkerColor`. -/
def wifiColorSpecTiers (u : Int) : String :=
  if u > 150 then "#F44336"
  else if 100 < u ∧ u ≤ 150 then "#FF9800"
  else if 50 < u ∧ u ≤ 100 then "#FFC107"
  else "#4CAF50"

/-- `getIconForFacilityType` from `app.js`. -/
def getIconForFacilityType (ftype : String) : String :=
  if ftype == "library" then "📚"
  else if ftype == "sports" then "🏋️"
  else if ftype == "hospital" then "🏥"
  else if ftype == "childcare" then "👶"
  else if ftype == "welfare" then "🤝"
  else "🏢"

/-- `getIconForEmergencyType` from `app.js`. -/
def getIconForEmergencyType (etype : String) : String :=
  if etype == "evacuation" then "🛡️"
  else if etype == "aed" then "❤️"
  else if etype == "police" then "🚓"
  else if etype == "fire" then "🚒"
  else "🚨"

/-! ## Data model: spots per category (§3 of the spec)

Fields irrelevant to every claim (descriptions, opening hours, phone
numbers, …) are omitted; position fields carry the `parseFloat` result
(`none` = `NaN`). -/

/-- A wifi record.  In the JSON the fields are the Japanese-named
`Wifi名` (display name), `設置場所住所` (installation address),
`利用者数` (user count), `緯度`/`経度` (latitude/longitude). -/
structure WifiSpot where
  wifiName : String
  address : String
  users : Int
  lat : Option ℚ
  lng : Option ℚ
deriving DecidableEq

structure TourismSpot where
  id : String
  name : String
  address : String
  latitude : Option ℚ
  longitude : Option ℚ
deriving DecidableEq

structure FacilitySpot where
  id : String
  name : String
  address : String
  ftype : String
  latitude : Option ℚ
  longitude : Option ℚ
deriving DecidableEq

structure EmergencySpot where
  id : String
  name : String
  address : String
  etype : String
  latitude : Option ℚ
  longitude : Option ℚ
deriving DecidableEq

/-- An event record; `endDateDay` is the calendar-day index denoted by the
`endDate` date-only string (so `new Date(endDate)` is the first instant
of that day). -/
structure EventSpot where
  id : String
  name : String
  location : String
  startDateDay : Int
  endDateDay : Int
  latitude : Option ℚ
  longitude : Option ℚ
deriving DecidableEq

structure Waypoint where
  name : String
  latitude : ℚ
  longitude : ℚ
deriving DecidableEq

structure Route where
  id : String
  name : String
  color : String
  polyline : List (ℚ × ℚ)
  waypoints : List Waypoint
deriving DecidableEq

structure CrowdSpot where
  name : String
  latitude : Option ℚ
  longitude : Option ℚ
  crowdingLevel : Int
deriving DecidableEq

/-- The global `allData` object. -/
structure AllData where
  wifi : List WifiSpot
  tourism : List TourismSpot
  facility : List FacilitySpot
  emergency : List EmergencySpot
  event : List EventSpot
  routes : List Route
  crowding : List CrowdSpot
deriving DecidableEq

/-- The initial value of `allData` (all categories empty). -/
def initialAllData : AllData :=
  { wifi := [], tourism := [], facility := [], emergency := [],
    event := [], routes := [], crowding := [] }

/-! ## Favorites store (`loadFavoritesFromStorage`, `saveFavoritesToStorage`,
`toggleFavorite`, `removeFavorite`) -/

/-- A stored favorite: the denormalized snapshot pushed by
`toggleFavorite`. -/
structure FavoriteRef where
  id : String
  category : String
  name : String
  latitude : String
  longitude : String
deriving DecidableEq

/-- The argument object handed to `toggleFavorite`; its fields are the
values the source reads (`item.id`, `item.category`,
`item.name || item.Wifi名`, `item.latitude || item.緯度`,
`item.longitude || item.経度`) — the `||`-coalescing has already been
resolved here. -/
structure FavItem where
  id : String
  category : String
  name : String
  latitude : String
  longitude : String
deriving DecidableEq

/-- The favorites state: the in-memory `favorites` array and the content
of the `kure-map-favorites` localStorage slot (kept in deserialized form;
`JSON.stringify` is injective on this data, so slot-equality of lists
models string equality of the serialized payloads). -/
structure FavoritesState where
  favorites : List FavoriteRef
  storage : List FavoriteRef
deriving DecidableEq

/-- `saveFavoritesToStorage`: writes `JSON.stringify(favorites)` into the
slot. -/
def saveFavoritesToStorage (st : FavoritesState) : FavoritesState :=
  { st with storage := st.favorites }

/-- `loadFavoritesFromStorage`: `stored` is the slot content as found at
startup — `none` models an absent slot or a `JSON.parse` failure (the
`catch` sets `favorites = []`), `some l` a successfully parsed array. -/
def loadFavoritesFromStorage (stored : Option (List FavoriteRef)) : List FavoriteRef :=
  match stored with
  | some l => l
  | none => []

/-- The predicate of `favorites.findIndex(fav => fav.id === item.id &&
fav.category === item.category)`. -/
def favMatches (item : FavItem) (fav : FavoriteRef) : Bool :=
  fav.id == item.id && fav.category == item.category

/-- The snapshot `toggleFavorite` pushes in its add branch. -/
def favSnapshot (item : FavItem) : FavoriteRef :=
  { id := item.id, category := item.category, name := item.name,
    latitude := item.latitude, longitude := item.longitude }

/-- `toggleFavorite` from `app.js`: `findIndex` + `splice(index, 1)` on a
hit, `push` of the snapshot on a miss, then `saveFavoritesToStorage()`
(the trailing `renderFavorites()` is DOM-only). -/
def toggleFavorite (item : FavItem) (st : FavoritesState) : FavoritesState :=
  match st.favorites.findIdx? (favMatches item) with
  | some index =>
      saveFavoritesToStorage { st with favorites := st.favorites.eraseIdx index }
  | none =>
      saveFavoritesToStorage { st with favorites := st.favorites ++ [favSnapshot item] }

/-- `removeFavorite` from `app.js`: `favorites.filter(fav => !(fav.id ===
id && fav.category === category))`, then save (the trailing
`renderFavorites()` is DOM-only). -/
def removeFavorite (id category : String) (st : FavoritesState) : FavoritesState :=
  saveFavoritesToStorage
    { st with favorites := st.favorites.filter (fun fav => !(fav.id == id && fav.category == category)) }

/-- `favorites.some(fav => fav.id === … && fav.category === …)` — the
membership test the popup builders use. -/
def isFavorite (item : FavItem) (l : List FavoriteRef) : Bool :=
  l.any (favMatches item)

/-- Whether two stored favorites share the same `(category, id)` pair. -/
def sharesPair (f g : FavoriteRef) : Bool :=
  f.id == g.id && f.category == g.category

/-- No two entries of the list share a `(category, id)` pair. -/
def noDupPairs : List FavoriteRef → Bool
  | [] => true
  | f :: fs => !(fs.any (sharesPair f)) && noDupPairs fs

/-- A sequence of `toggleFavorite` calls, oldest first. -/
def runToggles (items : List FavItem) (st : FavoritesState) : FavoritesState :=
  items.foldl (fun s it => toggleFavorite it s) st

/-- Reference description of the `favorites` list after one toggle:
remove the first entry matching the pair, and if none matches append the
snapshot.  Proved equal to what `findIdx?`/`eraseIdx`/append compute
(`toggleFavorite_favorites_eq`). -/
def toggleList (p : FavoriteRef → Bool) (snap : FavoriteRef) : List FavoriteRef → List FavoriteRef
  | [] => [snap]
  | f :: fs => if p f then fs else f :: toggleList p snap fs

/-! ## Data loading (`fetchData`, `loadAllData`) -/

/-- One millisecond-count per calendar day. -/
def msPerDay : Int := 86400000

/-- `new Date(s)` for the date-only strings found in the data files:
the first instant of calendar day `day`. -/
def newDateOfDay (day : Int) : Int := day * msPerDay

/-- The calendar day an instant falls in. -/
def dayOfInstant (t : Int) : Int := t / msPerDay

/-- The predicate of the events filter in `loadAllData`:
`new Date(event.endDate) >= today`, where `today = new Date()` is the
load instant `now`. -/
def keepEvent (now : Int) (e : EventSpot) : Bool :=
  decide (newDateOfDay e.endDateDay ≥ now)

/-- A settled HTTP response as `fetchData` sees it: `ok`/`status` from the
`Response` object, and `json` the outcome of `response.json()` (`none`
models a body that is not valid JSON, which rejects). -/
structure Response (α : Type) where
  ok : Bool
  status : Nat
  json : Option α
deriving DecidableEq

/-- `fetchData` from `app.js`: throws on `!response.ok`, otherwise returns
the parsed body (or throws if parsing rejects). -/
def fetchData {α : Type} (url : String) (resp : Response α) : Except String α :=
  if !resp.ok then
    Except.error ("failed to load: " ++ url ++ " status " ++ toString resp.status)
  else
    match resp.json with
    | some v => Except.ok v
    | none => Except.error ("malformed JSON: " ++ url)

/-- Shape of `wifi-data.json`: `wifiData['2025/10/01']` may be absent
(`|| []` then applies). -/
structure WifiPayload where
  dated20251001 : Option (List WifiSpot)
deriving DecidableEq

structure TourismPayload where
  spots : Option (List TourismSpot)
deriving DecidableEq

structure FacilitiesPayload where
  facilities : Option (List FacilitySpot)
deriving DecidableEq

structure EmergencyPayload where
  facilities : Option (List EmergencySpot)
deriving DecidableEq

structure EventsPayload where
  events : Option (List EventSpot)
deriving DecidableEq

structure RoutesPayload where
  routes : Option (List Route)
deriving DecidableEq

structure CrowdingPayload where
  facilities : Option (List CrowdSpot)
deriving DecidableEq

/-- The seven responses `Promise.all` awaits in `loadAllData`. -/
structure Responses where
  wifi : Response WifiPayload
  tourism : Response TourismPayload
  facilities : Response FacilitiesPayload
  emergency : Response EmergencyPayload
  events : Response EventsPayload
  routes : Response RoutesPayload
  crowding : Response CrowdingPayload
deriving DecidableEq

/-- `loadAllData` from `app.js`.  `Promise.all` rejects as soon as any of
the seven fetches rejects and the `allData` assignments run only after
all have resolved; sequencing the seven results here preserves exactly
that all-or-nothing behaviour (which error message wins under
`Promise.all` is timing-dependent and not modelled). -/
def loadAllData (now : Int) (r : Responses) : Except String AllData :=
  match fetchData "data/wifi-data.json" r.wifi with
  | Except.error e => Except.error e
  | Except.ok wifiData =>
  match fetchData "data/tourism-spots.json" r.tourism with
  | Except.error e => Except.error e
  | Except.ok tourismData =>
  match fetchData "data/facilities.json" r.facilities with
  | Except.error e => Except.error e
  | Except.ok facilitiesData =>
  match fetchData "data/emergency.json" r.emergency with
  | Except.error e => Except.error e
  | Except.ok emergencyData =>
  match fetchData "data/events.json" r.events with
  | Except.error e => Except.error e
  | Except.ok eventsData =>
  match fetchData "data/routes.json" r.routes with
  | Except.error e => Except.error e
  | Except.ok routesData =>
  match fetchData "data/crowding-data.json" r.crowding with
  | Except.error e => Except.error e
  | Except.ok crowdingData =>
      Except.ok
        { wifi := wifiData.dated20251001.getD []
          tourism := tourismData.spots.getD []
          facility := facilitiesData.facilities.getD []
          emergency := emergencyData.facilities.getD []
          event := (eventsData.events.getD []).filter (keepEvent now)
          routes := routesData.routes.getD []
          crowding := crowdingData.facilities.getD [] }

/-- The effect of one load cycle on the `allData` global: the field
assignments run only when `loadAllData` resolves; on a rejection the
caller's `catch` rethrows and `allData` keeps its previous value. -/
def runLoadAllData (st : AllData) (now : Int) (r : Responses) : AllData :=
  match loadAllData now r with
  | Except.ok newData => newData
  | Except.error _ => st

/-- A fetch fails when the response is non-success or its body is
malformed. -/
def fetchFailed {α : Type} (resp : Response α) : Prop :=
  resp.ok = false ∨ resp.json = none

/-- Some one of the seven category fetches fails. -/
def anyFetchFailed (r : Responses) : Prop :=
  fetchFailed r.wifi ∨ fetchFailed r.tourism ∨ fetchFailed r.facilities ∨
    fetchFailed r.emergency ∨ fetchFailed r.events ∨ fetchFailed r.routes ∨
    fetchFailed r.crowding

/-! ## Render engine (`renderAllMarkers`, `render*Markers`) -/

/-- A marker handed to the map library: position as parsed (`none` models
a `NaN` coordinate — Leaflet receives it unchanged), the pixel size of
the icon, its colour and its glyph/label. -/
structure Marker where
  lat : Option ℚ
  lng : Option ℚ
  size : ℚ
  color : String
  iconText : String
deriving DecidableEq

/-- `createIconMarker`: a fixed 40-px icon of the given glyph and
background colour; position is attached by the caller. -/
def createIconMarker (icon : String) (bgColor : String) (lat lng : Option ℚ) : Marker :=
  { lat := lat, lng := lng, size := 40, color := bgColor, iconText := icon }

/-- `renderWifiMarkers` minus the `clearLayers` (the caller state handles
replacement): one marker per record, unconditionally — there is no
finiteness check on the parsed coordinates. -/
def renderWifiMarkers (wifi : List WifiSpot) : List Marker :=
  wifi.map (fun spot =>
    let users := spot.users
    let size := getMarkerSize users
    let color := getWifiMarkerColor users
    { lat := spot.lat, lng := spot.lng, size := size, color := color,
      iconText := toString users })

def renderTourismMarkers (tourism : List TourismSpot) : List Marker :=
  tourism.map (fun spot => createIconMarker "🏯" CONFIG_colors.tourism spot.latitude spot.longitude)

def renderFacilityMarkers (facility : List FacilitySpot) : List Marker :=
  facility.map (fun f => createIconMarker (getIconForFacilityType f.ftype) CONFIG_colors.facility f.latitude f.longitude)

def renderEmergencyMarkers (emergency : List EmergencySpot) : List Marker :=
  emergency.map (fun f => createIconMarker (getIconForEmergencyType f.etype) CONFIG_colors.emergency f.latitude f.longitude)

def renderEventMarkers (event : List EventSpot) : List Marker :=
  event.map (fun e => createIconMarker "🎉" CONFIG_colors.event e.latitude e.longitude)

/-- The contents of the five `markersLayer` layer groups. -/
structure MarkersLayers where
  wifi : List Marker
  tourism : List Marker
  facility : List Marker
  emergency : List Marker
  event : List Marker
deriving DecidableEq

/-- `renderAllMarkers`: each `render*Markers` clears its layer group and
repopulates it from `allData`, so the layers are replaced wholesale. -/
def renderAllMarkers (data : AllData) : MarkersLayers :=
  { wifi := renderWifiMarkers data.wifi
    tourism := renderTourismMarkers data.tourism
    facility := renderFacilityMarkers data.facility
    emergency := renderEmergencyMarkers data.emergency
    event := renderEventMarkers data.event }

/-! ## Search (`handleSearch`) -/

/-- The state `handleSearch` can touch: the dataset it reads and the
rendered layer contents it may rewrite. -/
structure UIState where
  allData : AllData
  layers : MarkersLayers
deriving DecidableEq

/-- JS `String.prototype.toLowerCase`, modelled character-wise with
`Char.toLower` (it agrees with the real thing on the ASCII data
exercised here; Lean's own `String.toLower` is the same map, but its
accumulator-based implementation blocks kernel evaluation). -/
def jsToLowerCase (s : String) : String :=
  ⟨s.data.map Char.toLower⟩

/-- `handleSearch` from `app.js`: lowercases the input value; a query of
fewer than 2 characters triggers `renderAllMarkers()`; the other branch
contains only a comment — no matching and no re-rendering happens. -/
def handleSearch (st : UIState) (inputValue : String) : UIState :=
  let query := jsToLowerCase inputValue
  if query.length < 2 then
    { st with layers := renderAllMarkers st.allData }
  else
    st

/-! ## Route overlay (`showRoute`, `clearRoute`) -/

/-- The route-overlay state: the globals `currentRoute`, `routePolyline`
(the polyline layer on the map, carrying its geometry), `routeMarkers`
(the waypoint markers on the map, in push order), plus the UI selection
(the route-list item carrying the `active` class) and whether the route
controls are shown. -/
structure RouteState where
  currentRoute : Option Route
  routePolyline : Option (List (ℚ × ℚ))
  routeMarkers : List Waypoint
  activeListItem : Option String
  controlsShown : Bool
deriving DecidableEq

/-- The state at startup: all route globals null/empty. -/
def initialRouteState : RouteState :=
  { currentRoute := none, routePolyline := none, routeMarkers := [],
    activeListItem := none, controlsShown := false }

/-- `clearRoute` from `app.js`: removes the polyline layer if present and
nulls it, removes every marker in `routeMarkers` from the map and empties
the array, nulls `currentRoute`, strips the `active` class from every
route-list item and hides the controls. -/
def clearRoute (_st : RouteState) : RouteState :=
  { currentRoute := none, routePolyline := none, routeMarkers := [],
    activeListItem := none, controlsShown := false }

/-- `showRoute` from `app.js`: first `clearRoute()`, then sets
`currentRoute`, marks exactly this route's list item active, draws the
route's polyline, pushes one marker per waypoint onto the (just emptied)
`routeMarkers`, and shows the controls (`map.fitBounds` is a pure view
change and not modelled). -/
def showRoute (route : Route) (st : RouteState) : RouteState :=
  let cleared := clearRoute st
  { cleared with
      currentRoute := some route
      activeListItem := some route.id
      routePolyline := some route.polyline
      routeMarkers := cleared.routeMarkers ++ route.waypoints
      controlsShown := true }

/-- No route is active: no polyline or waypoint marker on the map, no
`currentRoute`, nothing selected in the route list. -/
def noRouteActive (st : RouteState) : Prop :=
  st.currentRoute = none ∧ st.routePolyline = none ∧
    st.routeMarkers = [] ∧ st.activeListItem = none

/-- Exactly route `r` is active: precisely its polyline and its waypoint
markers are on the map, and its list item is the selected one. -/
def exactlyRouteActive (r : Route) (st : RouteState) : Prop :=
  st.currentRoute = some r ∧ st.routePolyline = some r.polyline ∧
    st.routeMarkers = r.waypoints ∧ st.activeListItem = some r.id

/-- One user interaction on the route overlay: clicking a route-list item
(`showRoute`) or the clear button (`clearRoute`). -/
inductive RouteStep : RouteState → RouteState → Prop
  | showRoute (r : Route) (st : RouteState) : RouteStep st (KureMap.showRoute r st)
  | clearRoute (st : RouteState) : RouteStep st (KureMap.clearRoute st)

/-- Route-overlay states reachable from startup through `showRoute` /
`clearRoute` interactions. -/
inductive RouteReachable : RouteState → Prop
  | init : RouteReachable initialRouteState
  | step {st st2 : RouteState} : RouteReachable st → RouteStep st st2 → RouteReachable st2

/-! ## Category filters (`applyFilters`, `toggleFilter`) -/

/-- One boolean per category, mirroring the shape of `activeFilters` and
of the map-membership of the five `markersLayer` layer groups. -/
structure LayerFlags where
  wifi : Bool
  tourism : Bool
  facility : Bool
  emergency : Bool
  event : Bool
deriving DecidableEq

/-- `Object.keys(activeFilters)` in declaration order. -/
def filterCategories : List String :=
  ["wifi", "tourism", "facility", "emergency", "event"]

def getFlag (f : LayerFlags) (category : String) : Bool :=
  if category == "wifi" then f.wifi
  else if category == "tourism" then f.tourism
  else if category == "facility" then f.facility
  else if category == "emergency" then f.emergency
  else f.event

def setFlag (f : LayerFlags) (category : String) (v : Bool) : LayerFlags :=
  if category == "wifi" then { f with wifi := v }
  else if category == "tourism" then { f with tourism := v }
  else if category == "facility" then { f with facility := v }
  else if category == "emergency" then { f with emergency := v }
  else { f with event := v }

/-- The filter-relevant state: the `activeFilters` global and, for each
category, whether its layer group is currently attached to the map. -/
structure FilterUIState where
  activeFilters : LayerFlags
  layersOnMap : LayerFlags
deriving DecidableEq

/-- `applyFilters` from `app.js`: for each category key, attach
the layer group (`addTo(map)`, a no-op when already attached) when the
filter is on, else detach it (`map.removeLayer`, a no-op when absent). -/
def applyFilters (st : FilterUIState) : FilterUIState :=
  filterCategories.foldl
    (fun s category =>
      if getFlag s.activeFilters category then
        { s with layersOnMap := setFlag s.layersOnMap category true }
      else
        { s with layersOnMap := setFlag s.layersOnMap category false })
    st

/-- `applyFilters` instrumented with the visible/hidden transitions it
causes: a category is logged when the attach/detach call actually changes
its layer's map membership. -/
def applyFiltersTrace (st : FilterUIState) : FilterUIState × List String :=
  filterCategories.foldl
    (fun acc category =>
      let s := acc.1
      let target := getFlag s.activeFilters category
      let current := getFlag s.layersOnMap category
      ({ s with layersOnMap := setFlag s.layersOnMap category target },
        if current == target then acc.2 else acc.2 ++ [category]))
    (st, [])

/-- `toggleFilter` from `app.js`. -/
def toggleFilter (category : String) (st : FilterUIState) : FilterUIState :=
  applyFilters { st with activeFilters := setFlag st.activeFilters category (!(getFlag st.activeFilters category)) }

/-! ## Concrete sample inputs used by counterexamples and witnesses -/

def itemA : FavItem :=
  { id := "t1", category := "tourism", name := "Spot A",
    latitude := "34.2", longitude := "132.5" }

def favA : FavoriteRef := favSnapshot itemA

def favB : FavoriteRef :=
  { id := "t2", category := "tourism", name := "Spot B",
    latitude := "34.3", longitude := "132.6" }

def demoWifiSpot : WifiSpot :=
  { wifiName := "Kure Station WiFi", address := "Kure city center",
    users := 80, lat := some 34, lng := some 132 }

/-- A wifi record whose 緯度/経度 strings are not numeric, so `parseFloat`
yields `NaN` on both. -/
def badWifiSpot : WifiSpot :=
  { wifiName := "Broken spot", address := "unknown", users := 10,
    lat := none, lng := none }

def demoAllData : AllData :=
  { initialAllData with wifi := [demoWifiSpot] }

def demoUIState : UIState :=
  { allData := demoAllData, layers := renderAllMarkers demoAllData }

def evYesterday : EventSpot :=
  { id := "e0", name := "Harbor fair", location := "Pier",
    startDateDay := -3, endDateDay := -1, latitude := some 34, longitude := some 132 }

def evToday : EventSpot :=
  { id := "e1", name := "Port festival", location := "Pier",
    startDateDay := -1, endDateDay := 0, latitude := some 34, longitude := some 132 }

def evTomorrow : EventSpot :=
  { id := "e2", name := "Autumn market", location := "Park",
    startDateDay := 0, endDateDay := 1, latitude := some 34, longitude := some 132 }

/-- Noon of calendar day 0, as a load instant. -/
def noonOfDayZero : Int := 43200000

def okResponse {α : Type} (v : α) : Response α :=
  { ok := true, status := 200, json := some v }

/-- All seven fetches succeed; only the events file has records. -/
def demoEventResponses : Responses :=
  { wifi := okResponse ⟨none⟩
    tourism := okResponse ⟨none⟩
    facilities := okResponse ⟨none⟩
    emergency := okResponse ⟨none⟩
    events := okResponse ⟨some [evYesterday, evToday, evTomorrow]⟩
    routes := okResponse ⟨none⟩
    crowding := okResponse ⟨none⟩ }

/-- Every fetch comes back 404 with an unreadable body. -/
def failedResponses : Responses :=
  { wifi := ⟨false, 404, none⟩
    tourism := ⟨false, 404, none⟩
    facilities := ⟨false, 404, none⟩
    emergency := ⟨false, 404, none⟩
    events := ⟨false, 404, none⟩
    routes := ⟨false, 404, none⟩
    crowding := ⟨false, 404, none⟩ }

def routeA : Route :=
  { id := "r1", name := "Harbor walk", color := "#3388ff",
    polyline := [(34, 132), (35, 133)],
    waypoints := [⟨"Pier", 34, 132⟩, ⟨"Museum", 35, 133⟩] }

def routeB : Route :=
  { id := "r2", name := "Hill loop", color := "#ff8833",
    polyline := [(36, 134)],
    waypoints := [⟨"Summit", 36, 134⟩] }

/-! # Theorems -/

/-- Claim C9: for every usage count `u`, the wifi marker colour follows
the descending thresholds — `u > 150` highest-alert, `100 < u ≤ 150`
high, `50 < u ≤ 100` medium, `u ≤ 50` baseline; in particular 151 ↦
highest, 150/101 ↦ high, 100/51 ↦ medium, 50/0 ↦ baseline. -/
theorem getWifiMarkerColor_tiers :
    (∀ u : Int, getWifiMarkerColor u = wifiColorSpecTiers u) ∧
    getWifiMarkerColor 151 = "#F44336" ∧ getWifiMarkerColor 150 = "#FF9800" ∧
    getWifiMarkerColor 101 = "#FF9800" ∧ getWifiMarkerColor 100 = "#FFC107" ∧
    getWifiMarkerColor 51 = "#FFC107" ∧ getWifiMarkerColor 50 = "#4CAF50" ∧
    getWifiMarkerColor 0 = "#4CAF50" := by
  refine ⟨fun u => ?_, by decide, by decide, by decide, by decide, by decide,
    by decide, by decide⟩
  unfold getWifiMarkerColor wifiColorSpecTiers
  split_ifs <;> first | rfl | omega

set_option maxHeartbeats 2000000 in
/-- Claim C10: `applyFilters` is idempotent — a second run with the
`FilterState` unchanged yields the same layer/map memberships and logs no
visible/hidden transition; moreover the instrumented run computes the
same state as the plain one. -/
theorem applyFilters_idempotent (st : FilterUIState) :
    applyFilters (applyFilters st) = applyFilters st ∧
    (applyFiltersTrace (applyFilters st)).2 = [] ∧
    (applyFiltersTrace st).1 = applyFilters st := by
  obtain ⟨⟨a, b, c, d, e⟩, ⟨u, v, w, x, y⟩⟩ := st
  cases a <;> cases b <;> cases c <;> cases d <;> cases e <;> exact ⟨rfl, rfl, rfl⟩

/-- Claim C6 (the code, at the failing input): `renderWifiMarkers` builds
one marker per record unconditionally — a record whose position fields do
not parse to finite numbers is not skipped, and its marker carries the
NaN position. -/
theorem renderWifiMarkers_no_position_check :
    (∀ spots : List WifiSpot, (renderWifiMarkers spots).length = spots.length) ∧
    renderWifiMarkers [badWifiSpot] =
      [{ lat := none, lng := none, size := 20, color := "#4CAF50", iconText := "10" }] := by
  refine ⟨fun spots => ?_, ?_⟩
  · simp [renderWifiMarkers]
  · simp only [renderWifiMarkers, badWifiSpot, List.map, Marker.mk.injEq, List.cons.injEq]
    norm_num [getMarkerSize, jsMin, jsMax, CONFIG_marker, getWifiMarkerColor, CONFIG_colors]
    rfl

/-- Claim C1 (the code, at the failing input): for a query of length ≥ 2
`handleSearch` is the identity — no matching and no re-rendering happens
— while a short query does restore the full render; the demo state has a
rendered wifi marker that a no-match query should have removed. -/
theorem handleSearch_does_not_filter :
    (∀ st : UIState, handleSearch st "zzz" = st) ∧
    (∀ st : UIState, handleSearch st "a" =
      { st with layers := renderAllMarkers st.allData }) ∧
    2 ≤ "zzz".length ∧
    demoUIState.layers.wifi.length = 1 := by
  exact ⟨fun st => rfl, fun st => rfl, by decide, by decide⟩

/-- Claim C5 (the code, at the failing input): at a load instant of noon
of day 0, the events filter drops an event whose `endDate` names day 0
(today) — `new Date(endDate)` is the start of that day, which is already
in the past — while keeping an event ending on day 1; an event ending
yesterday (day −1) is also dropped.  The whole-load computation shows the
same: only the day-1 event survives into `allData.event`. -/
theorem keepEvent_excludes_event_ending_today :
    dayOfInstant noonOfDayZero = 0 ∧ evToday.endDateDay = 0 ∧
    keepEvent noonOfDayZero evToday = false ∧
    evYesterday.endDateDay = -1 ∧ keepEvent noonOfDayZero evYesterday = false ∧
    evTomorrow.endDateDay = 1 ∧ keepEvent noonOfDayZero evTomorrow = true ∧
    runLoadAllData initialAllData noonOfDayZero demoEventResponses =
      { initialAllData with event := [evTomorrow] } := by
  refine ⟨by decide, rfl, by decide, rfl, by decide, rfl, by decide, ?_⟩
  rfl

/-! ### Favorites store lemmas -/

/-- `findIndex` + `splice`/`push` is remove-first-match-or-append. -/
theorem toggle_core_eq (p : FavoriteRef → Bool) (snap : FavoriteRef) :
    ∀ l : List FavoriteRef,
      (match l.findIdx? p with
        | some i => l.eraseIdx i
        | none => l ++ [snap]) = toggleList p snap l
  | [] => by simp [toggleList]
  | f :: fs => by
      have ih := toggle_core_eq p snap fs
      by_cases h : p f
      · simp [List.findIdx?_cons, h, toggleList]
      · rw [List.findIdx?_cons]
        simp only [h, if_false, List.findIdx?_succ]
        cases hfs : fs.findIdx? p with
        | none =>
            rw [hfs] at ih
            simp only [hfs, Option.map_none']
            simpa [toggleList, h] using congrArg (List.cons f) ih
        | some i =>
            rw [hfs] at ih
            simp only [hfs, Option.map_some', List.eraseIdx_cons_succ]
            simpa [toggleList, h] using congrArg (List.cons f) ih

/-- `toggleFavorite` in closed form: the in-memory list becomes
`toggleList`, and the storage slot is synchronized to it. -/
theorem toggleFavorite_closed (item : FavItem) (st : FavoritesState) :
    toggleFavorite item st =
      { favorites := toggleList (favMatches item) (favSnapshot item) st.favorites,
        storage := toggleList (favMatches item) (favSnapshot item) st.favorites } := by
  have h := toggle_core_eq (favMatches item) (favSnapshot item) st.favorites
  unfold toggleFavorite saveFavoritesToStorage
  cases hidx : st.favorites.findIdx? (favMatches item) with
  | some i => rw [hidx] at h; simp [← h]
  | none => rw [hidx] at h; simp [← h]

theorem toggleList_of_any_false {p : FavoriteRef → Bool} {s : FavoriteRef}
    {l : List FavoriteRef} (h : l.any p = false) :
    toggleList p s l = l ++ [s] := by
  induction l with
  | nil => rfl
  | cons f fs ih =>
      simp only [List.any_cons, Bool.or_eq_false_iff] at h
      simp [toggleList, h.1, ih h.2]

theorem countP_toggleList_of_any_false {p : FavoriteRef → Bool} {s : FavoriteRef}
    {l : List FavoriteRef} (hl : l.any p = false) (hsnap : p s = true) :
    List.countP p (toggleList p s l) = List.countP p l + 1 := by
  rw [toggleList_of_any_false hl, List.countP_append]
  simp [List.countP_cons, hsnap]

theorem countP_toggleList_of_any_true {p : FavoriteRef → Bool} {s : FavoriteRef} :
    ∀ {l : List FavoriteRef}, l.any p = true →
      List.countP p (toggleList p s l) = List.countP p l - 1 := by
  intro l
  induction l with
  | nil => intro h; cases h
  | cons f fs ih =>
      intro h
      by_cases hf : p f
      · simp [toggleList, hf, List.countP_cons]
      · simp only [List.any_cons, hf, Bool.false_or] at h
        simp [toggleList, hf, List.countP_cons, ih h]

theorem any_eq_false_of_countP_eq_zero {p : FavoriteRef → Bool}
    {l : List FavoriteRef} (h : List.countP p l = 0) : l.any p = false := by
  rw [← Bool.not_eq_true, List.any_eq_true]
  rintro ⟨a, ha, hpa⟩
  exact absurd hpa (List.countP_eq_zero.1 h a ha)

theorem countP_eq_zero_of_any_false {p : FavoriteRef → Bool}
    {l : List FavoriteRef} (h : l.any p = false) : List.countP p l = 0 := by
  apply List.countP_eq_zero.2
  intro a ha hpa
  have : l.any p = true := List.any_eq_true.2 ⟨a, ha, hpa⟩
  rw [h] at this
  cases this

theorem any_eq_true_of_one_le_countP {p : FavoriteRef → Bool}
    {l : List FavoriteRef} (h : 1 ≤ List.countP p l) : l.any p = true := by
  rcases List.countP_pos_iff.1 h with ⟨a, ha, hpa⟩
  exact List.any_eq_true.2 ⟨a, ha, hpa⟩

theorem one_le_countP_of_any {p : FavoriteRef → Bool}
    {l : List FavoriteRef} (h : l.any p = true) : 1 ≤ List.countP p l := by
  rcases List.any_eq_true.1 h with ⟨a, ha, hpa⟩
  exact List.countP_pos_iff.2 ⟨a, ha, hpa⟩

/-- Toggling off the snapshot just appended restores the original list. -/
theorem toggleList_append_snap {p : FavoriteRef → Bool} {snap : FavoriteRef}
    (hsnap : p snap = true) :
    ∀ {l : List FavoriteRef}, l.any p = false → toggleList p snap (l ++ [snap]) = l := by
  intro l
  induction l with
  | nil => intro _; simp [toggleList, hsnap]
  | cons f fs ih =>
      intro h
      simp only [List.any_cons, Bool.or_eq_false_iff] at h
      simp [toggleList, h.1, ih h.2]

/-- The snapshot built from `item` shares a pair with `f` exactly when
`f` matches `item`. -/
theorem sharesPair_snapshot (item : FavItem) (f : FavoriteRef) :
    sharesPair f (favSnapshot item) = favMatches item f := rfl

theorem any_toggleList_of_any_false (p q : FavoriteRef → Bool) (snap : FavoriteRef) :
    ∀ {l : List FavoriteRef}, l.any q = false → q snap = false →
      (toggleList p snap l).any q = false := by
  intro l
  induction l with
  | nil => intro _ hs; simp [toggleList, hs]
  | cons f fs ih =>
      intro h hs
      simp only [List.any_cons, Bool.or_eq_false_iff] at h
      by_cases hf : p f
      · simp [toggleList, hf, h.2]
      · simp [toggleList, hf, List.any_cons, h.1, ih h.2 hs]

/-- One toggle keeps the favorites list free of duplicate
`(category, id)` pairs. -/
theorem toggleList_noDupPairs {item : FavItem} :
    ∀ {l : List FavoriteRef}, noDupPairs l = true →
      noDupPairs (toggleList (favMatches item) (favSnapshot item) l) = true := by
  intro l
  induction l with
  | nil => intro _; simp [toggleList, noDupPairs]
  | cons f fs ih =>
      intro h
      simp only [noDupPairs, Bool.and_eq_true, Bool.not_eq_true'] at h
      by_cases hf : favMatches item f
      · simpa [toggleList, hf] using h.2
      · have hf' : favMatches item f = false := by simpa using hf
        have hsnap : sharesPair f (favSnapshot item) = false := by
          rw [sharesPair_snapshot]; exact hf'
        simp only [toggleList, hf', if_false, noDupPairs, Bool.and_eq_true,
          Bool.not_eq_true']
        exact ⟨any_toggleList_of_any_false _ _ _ h.1 hsnap, ih h.2⟩

/-- With at most one match present, removing the first match is the same
as removing every match. -/
theorem toggleList_eq_filter {item : FavItem} :
    ∀ {l : List FavoriteRef}, List.countP (favMatches item) l ≤ 1 →
      l.any (favMatches item) = true →
      toggleList (favMatches item) (favSnapshot item) l
        = l.filter (fun fav => !(favMatches item fav)) := by
  intro l
  induction l with
  | nil => intro _ h; cases h
  | cons f fs ih =>
      intro hcount hany
      by_cases hf : favMatches item f
      · have h0 : List.countP (favMatches item) fs = 0 := by
          rw [List.countP_cons] at hcount
          simp only [hf, if_true] at hcount
          omega
        have : List.filter (fun fav => !(favMatches item fav)) fs = fs := by
          apply List.filter_eq_self.2
          intro a ha
          have := List.countP_eq_zero.1 h0 a ha
          simpa using this
        simp [toggleList, hf, List.filter_cons, this]
      · have hf' : favMatches item f = false := by simpa using hf
        have hany' : fs.any (favMatches item) = true := by
          simpa [List.any_cons, hf'] using hany
        have hcount' : List.countP (favMatches item) fs ≤ 1 := by
          rw [List.countP_cons] at hcount
          simp only [hf', if_false] at hcount
          omega
        simp [toggleList, hf', List.filter_cons, ih hcount' hany']

/-- Claim C3 counterexample: with favorites `[favA, favB]`, toggling
`itemA` (the pair of `favA`) twice yields `[favB, favA]` — membership is
restored but the list is not what it was before the first toggle. -/
theorem toggleFavorite_twice_reorders :
    (toggleFavorite itemA (toggleFavorite itemA
        { favorites := [favA, favB], storage := [favA, favB] })).favorites
      ≠ [favA, favB] := by decide

/-- Claim C3 (amended): after every toggle the storage slot equals the
in-memory list; when the toggled pair occurs at most once (the invariant
toggle-maintained states satisfy), toggling twice restores the membership
state; and when the item was not a favorite (and storage was in sync),
toggling twice restores the entire state exactly. -/
theorem toggleFavorite_roundtrip (item : FavItem) (st : FavoritesState) :
    (toggleFavorite item st).storage = (toggleFavorite item st).favorites ∧
    (List.countP (favMatches item) st.favorites ≤ 1 →
      isFavorite item (toggleFavorite item (toggleFavorite item st)).favorites
        = isFavorite item st.favorites) ∧
    (isFavorite item st.favorites = false → st.storage = st.favorites →
      toggleFavorite item (toggleFavorite item st) = st) := by
  have hsnap : favMatches item (favSnapshot item) = true := by
    simp [favMatches, favSnapshot]
  refine ⟨by rw [toggleFavorite_closed], ?_, ?_⟩
  · intro hcount
    rw [toggleFavorite_closed, toggleFavorite_closed]
    simp only [isFavorite]
    cases hany : st.favorites.any (favMatches item) with
    | false =>
        have h0 : List.countP (favMatches item) st.favorites = 0 :=
          countP_eq_zero_of_any_false hany
        have h1 := countP_toggleList_of_any_false (s := favSnapshot item) hany hsnap
        rw [h0] at h1
        have hany1 : (toggleList (favMatches item) (favSnapshot item) st.favorites).any
            (favMatches item) = true := any_eq_true_of_one_le_countP (by omega)
        have h2 := countP_toggleList_of_any_true (s := favSnapshot item) hany1
        rw [h1] at h2
        exact any_eq_false_of_countP_eq_zero (by omega)
    | true =>
        have hge := one_le_countP_of_any hany
        have hone : List.countP (favMatches item) st.favorites = 1 :=
          le_antisymm hcount hge
        have h1 := countP_toggleList_of_any_true (s := favSnapshot item) hany
        rw [hone] at h1
        have hany1 : (toggleList (favMatches item) (favSnapshot item) st.favorites).any
            (favMatches item) = false := any_eq_false_of_countP_eq_zero (by omega)
        have h2 := countP_toggleList_of_any_false (s := favSnapshot item) hany1 hsnap
        rw [h1] at h2
        exact any_eq_true_of_one_le_countP (by omega)
  · intro hmem hsync
    simp only [isFavorite] at hmem
    have h1 := toggleList_of_any_false (s := favSnapshot item) hmem
    rw [toggleFavorite_closed, toggleFavorite_closed]
    simp only [h1]
    rw [toggleList_append_snap hsnap hmem]
    cases st with
    | mk favs stor => simp_all

/-- Claim C3 witness for the amended round-trip at a concrete state. -/
theorem toggleFavorite_roundtrip_witness :
    isFavorite itemA (toggleFavorite itemA (toggleFavorite itemA
        { favorites := [favB], storage := [favB] })).favorites
      = isFavorite itemA ({ favorites := [favB], storage := [favB] } : FavoritesState).favorites ∧
    toggleFavorite itemA (toggleFavorite itemA
        { favorites := [favB], storage := [favB] })
      = { favorites := [favB], storage := [favB] } :=
  ⟨(toggleFavorite_roundtrip itemA { favorites := [favB], storage := [favB] }).2.1
      (by decide),
   (toggleFavorite_roundtrip itemA { favorites := [favB], storage := [favB] }).2.2
      (by decide) rfl⟩

/-- Claim C4 counterexample: `loadFavoritesFromStorage` accepts any
well-formed JSON array as-is, so a stored array with a duplicated
`(category, id)` pair becomes the startup state, and after the empty
toggle sequence the favorites list still holds two entries with the same
pair. -/
theorem startup_duplicates_survive :
    noDupPairs (runToggles []
      { favorites := loadFavoritesFromStorage (some [favA, favA]),
        storage := [favA, favA] }).favorites = false := by decide

/-- Claim C4 (amended): if the state the toggles start from has no
duplicate `(category, id)` pair — as holds for a startup state that is
absent, corrupt (both load as `[]`) or was written by this code — then
after any sequence of `toggleFavorite` operations the favorites list
still has no duplicate pair. -/
theorem runToggles_preserves_noDupPairs :
    ∀ (items : List FavItem) (st : FavoritesState),
      noDupPairs st.favorites = true →
      noDupPairs (runToggles items st).favorites = true
  | [], _, h => h
  | it :: rest, st, h => by
      have hstep : noDupPairs (toggleFavorite it st).favorites = true := by
        rw [toggleFavorite_closed]
        exact toggleList_noDupPairs h
      have := runToggles_preserves_noDupPairs rest (toggleFavorite it st) hstep
      simpa [runToggles, List.foldl_cons] using this

/-- Claim C4 witness: a toggle sequence from the empty startup state. -/
theorem runToggles_preserves_noDupPairs_witness :
    noDupPairs (runToggles [itemA] { favorites := [], storage := [] }).favorites = true :=
  runToggles_preserves_noDupPairs [itemA] { favorites := [], storage := [] } (by decide)

/-- Claim C8 counterexample: on a state holding the same favorite twice,
`removeFavorite` (which filters out every match) and `toggleFavorite`
(which splices out only the first match) give different states, although
the pair is present. -/
theorem removeFavorite_ne_toggle_on_duplicates :
    isFavorite itemA ([favA, favA] : List FavoriteRef) = true ∧
    removeFavorite itemA.id itemA.category
        { favorites := [favA, favA], storage := [favA, favA] }
      ≠ toggleFavorite itemA { favorites := [favA, favA], storage := [favA, favA] } := by
  decide

/-- Claim C8 (amended): when the `(category, id)` pair occurs at most
once in the favorites list (the invariant toggle-maintained states
satisfy) and is present, `removeFavorite id category` produces exactly
the state (in memory and in storage) that toggling that existing
favorite produces. -/
theorem removeFavorite_eq_toggle (item : FavItem) (st : FavoritesState)
    (hcount : List.countP (favMatches item) st.favorites ≤ 1)
    (hmem : isFavorite item st.favorites = true) :
    removeFavorite item.id item.category st = toggleFavorite item st := by
  simp only [isFavorite] at hmem
  have h := toggleList_eq_filter  hcount hmem
  rw [toggleFavorite_closed]
  unfold removeFavorite saveFavoritesToStorage
  exact congrArg (fun l => FavoritesState.mk l l) h.symm

/-- Claim C8 witness at a concrete singleton-match state. -/
theorem removeFavorite_eq_toggle_witness :
    removeFavorite itemA.id itemA.category
        { favorites := [favA, favB], storage := [favA, favB] }
      = toggleFavorite itemA { favorites := [favA, favB], storage := [favA, favB] } :=
  removeFavorite_eq_toggle itemA
    { favorites := [favA, favB], storage := [favA, favB] } (by decide) (by decide)

/-! ### Data-loading lemmas -/

theorem fetchData_isOk {α : Type} (url : String) (resp : Response α) :
    (∃ v, fetchData url resp = Except.ok v) ↔ ¬ fetchFailed resp := by
  unfold fetchData fetchFailed
  cases hok : resp.ok <;> cases hjson : resp.json <;> simp [hok, hjson]

theorem fetchFailed_of_error {α : Type} {url : String} {resp : Response α} {e : String}
    (h : fetchData url resp = Except.error e) : fetchFailed resp := by
  by_contra hn
  obtain ⟨v, hv⟩ := (fetchData_isOk url resp).2 hn
  rw [h] at hv
  cases hv

theorem not_fetchFailed_of_ok {α : Type} {url : String} {resp : Response α} {v : α}
    (h : fetchData url resp = Except.ok v) : ¬ fetchFailed resp :=
  (fetchData_isOk url resp).1 ⟨v, h⟩

/-- Master case split: a load either fails together with one of its
fetches, or succeeds with none of them failed. -/
theorem loadAllData_cases (now : Int) (r : Responses) :
    (anyFetchFailed r ∧ ∃ e, loadAllData now r = Except.error e) ∨
    (¬ anyFetchFailed r ∧ ∃ d, loadAllData now r = Except.ok d) := by
  unfold loadAllData
  cases hw : fetchData "data/wifi-data.json" r.wifi with
  | error e => exact Or.inl ⟨Or.inl (fetchFailed_of_error hw), e, rfl⟩
  | ok wifiData =>
  cases ht : fetchData "data/tourism-spots.json" r.tourism with
  | error e => exact Or.inl ⟨Or.inr (Or.inl (fetchFailed_of_error ht)), e, rfl⟩
  | ok tourismData =>
  cases hf : fetchData "data/facilities.json" r.facilities with
  | error e => exact Or.inl ⟨Or.inr (Or.inr (Or.inl (fetchFailed_of_error hf))), e, rfl⟩
  | ok facilitiesData =>
  cases hm : fetchData "data/emergency.json" r.emergency with
  | error e =>
      exact Or.inl ⟨Or.inr (Or.inr (Or.inr (Or.inl (fetchFailed_of_error hm)))), e, rfl⟩
  | ok emergencyData =>
  cases he : fetchData "data/events.json" r.events with
  | error e =>
      exact Or.inl
        ⟨Or.inr (Or.inr (Or.inr (Or.inr (Or.inl (fetchFailed_of_error he))))), e, rfl⟩
  | ok eventsData =>
  cases hr : fetchData "data/routes.json" r.routes with
  | error e =>
      exact Or.inl
        ⟨Or.inr (Or.inr (Or.inr (Or.inr (Or.inr (Or.inl (fetchFailed_of_error hr)))))),
          e, rfl⟩
  | ok routesData =>
  cases hc : fetchData "data/crowding-data.json" r.crowding with
  | error e =>
      exact Or.inl
        ⟨Or.inr (Or.inr (Or.inr (Or.inr (Or.inr (Or.inr (fetchFailed_of_error hc)))))),
          e, rfl⟩
  | ok crowdingData =>
      refine Or.inr ⟨?_, _, rfl⟩
      rintro (h | h | h | h | h | h | h)
      · exact not_fetchFailed_of_ok hw h
      · exact not_fetchFailed_of_ok ht h
      · exact not_fetchFailed_of_ok hf h
      · exact not_fetchFailed_of_ok hm h
      · exact not_fetchFailed_of_ok he h
      · exact not_fetchFailed_of_ok hr h
      · exact not_fetchFailed_of_ok hc h

/-- Claim C2: a load cycle is all-or-nothing — if any one category fetch
fails (non-success status or malformed payload), `loadAllData` rejects
and `allData` is left exactly as it was; only when all seven fetches
succeed is the dataset replaced (by a value independent of the previous
state). -/
theorem loadAllData_allOrNothing (st : AllData) (now : Int) (r : Responses) :
    (anyFetchFailed r →
      (∃ e, loadAllData now r = Except.error e) ∧ runLoadAllData st now r = st) ∧
    (¬ anyFetchFailed r →
      ∃ d, loadAllData now r = Except.ok d ∧ runLoadAllData st now r = d) := by
  rcases loadAllData_cases now r with ⟨hfail, e, he⟩ | ⟨hok, d, hd⟩
  · refine ⟨fun _ => ⟨⟨e, he⟩, ?_⟩, fun hn => absurd hfail hn⟩
    unfold runLoadAllData
    rw [he]
  · refine ⟨fun h => absurd h hok, fun _ => ⟨d, hd, ?_⟩⟩
    unfold runLoadAllData
    rw [hd]

/-- Claim C2 witness: a cycle where every fetch 404s leaves the demo
dataset untouched; a cycle where all fetches succeed installs the fetched
dataset. -/
theorem loadAllData_allOrNothing_witness :
    ((∃ e, loadAllData noonOfDayZero failedResponses = Except.error e) ∧
      runLoadAllData demoAllData noonOfDayZero failedResponses = demoAllData) ∧
    (∃ d, loadAllData noonOfDayZero demoEventResponses = Except.ok d ∧
      runLoadAllData initialAllData noonOfDayZero demoEventResponses = d) :=
  ⟨(loadAllData_allOrNothing demoAllData noonOfDayZero failedResponses).1
      (Or.inl (Or.inl rfl)),
   (loadAllData_allOrNothing initialAllData noonOfDayZero demoEventResponses).2
      (by rintro (h | h | h | h | h | h | h) <;>
        simp [demoEventResponses, okResponse, fetchFailed] at h)⟩

/-! ### Route-overlay lemmas -/

/-- Claim C7: the route overlay is a two-state machine.  `showRoute r`
leaves exactly `r`'s polyline artifacts and `r`'s waypoint markers on the map
(whatever was active before, so selecting B over A leaves zero of A's
visuals), `clearRoute` returns to the no-route state from anywhere, and
every state reachable from startup through these two operations has
either no route active or exactly one. -/
theorem routeOverlay_state_machine :
    (∀ (st : RouteState) (r : Route), exactlyRouteActive r (showRoute r st)) ∧
    (∀ st : RouteState, noRouteActive (clearRoute st)) ∧
    (∀ st : RouteState, RouteReachable st →
      noRouteActive st ∨ ∃ r, exactlyRouteActive r st) := by
  refine ⟨fun st r => ⟨rfl, rfl, rfl, rfl⟩, fun st => ⟨rfl, rfl, rfl, rfl⟩,
    fun st h => ?_⟩
  induction h with
  | init => exact Or.inl ⟨rfl, rfl, rfl, rfl⟩
  | step hprev hstep ih =>
      cases hstep with
      | showRoute r st => exact Or.inr ⟨r, rfl, rfl, rfl, rfl⟩
      | clearRoute st => exact Or.inl ⟨rfl, rfl, rfl, rfl⟩

/-- Claim C7 witness: the state after selecting route B while route A is
active is reachable, and the invariant holds there (it is the
exactly-one-route state of B). -/
theorem routeOverlay_state_machine_witness :
    noRouteActive (showRoute routeB (showRoute routeA initialRouteState)) ∨
      ∃ r, exactlyRouteActive r (showRoute routeB (showRoute routeA initialRouteState)) :=
  routeOverlay_state_machine.2.2 _
    (RouteReachable.step
      (RouteReachable.step RouteReachable.init (RouteStep.showRoute routeA _))
      (RouteStep.showRoute routeB _))

end KureMap
